import Mathlib

/-!
Verification development for the tool-orchestration chat service and its
dashboard helpers.

The conversational core of the repository is the `chat.sendMessage`
procedure: it seeds a conversation with a fixed system prompt and the
user text, then drives a bounded generation/tool loop (the loop body
itself lives in the external generation SDK; it is modelled here from
the design specification), and finally maps the result to the transport
shape `\x7b output \x7d` or a thrown `TRPCError`.  The dashboard helpers
`getReports` and `formatFileSize` are translated directly from their
source files.
-/

/-- Error kinds of the orchestration design: local (recoverable) and fatal
fault classes. -/
inductive ErrKind
  | unknownTool
  | toolInvocationError
  | timeout
  | cancelled
  | backendUnreachable
  deriving DecidableEq

/-- A tool call emitted by the model inside one assistant turn. -/
structure ToolCall where
  id : String
  name : String
  arguments : String
  deriving DecidableEq

/-- Result of one tool call: success payload or a normalized error. -/
inductive ToolRes
  | ok (callId : String) (payload : String)
  | err (callId : String) (kind : ErrKind) (message : String)
  deriving DecidableEq

/-- One turn of the conversation context. -/
inductive Turn
  | system (text : String)
  | user (text : String)
  | assistant (text : Option String) (toolCalls : List ToolCall)
  | toolResult (res : ToolRes)
  deriving DecidableEq

/-- Outcome of one orchestration run. -/
inductive Outcome
  | completed (text : String)
  | budgetExhausted (lastText : Option String)
  | failed (kind : ErrKind) (message : String)
  deriving DecidableEq

/-- Generation client boundary: one generation request over the full
context, returning assistant text and tool calls, or an explicit error. -/
def GenFn : Type :=
  List Turn → Except (ErrKind × String) (Option String × List ToolCall)

/-- A registered tool invoker: arguments to payload or normalized error. -/
def Invoker : Type := String → Except (ErrKind × String) String

/-- Tool registry snapshot taken at loop start: name to optional invoker. -/
def RegistryFn : Type := String → Option Invoker

/-- Resolve and run one tool call against the registry snapshot.  A name
absent from the snapshot synthesizes an UnknownTool error result instead
of invoking anything. -/
def invokeOne (reg : RegistryFn) (c : ToolCall) : ToolRes :=
  match reg c.name with
  | none => ToolRes.err c.id ErrKind.unknownTool ("Unknown tool: " ++ c.name)
  | some f =>
    match f c.arguments with
    | Except.ok p => ToolRes.ok c.id p
    | Except.error e => ToolRes.err c.id e.1 e.2

/-- Dispatch all tool calls of one assistant turn; results are listed in
tool-call emission order. -/
def dispatchCalls (reg : RegistryFn) (calls : List ToolCall) : List ToolRes :=
  calls.map (invokeOne reg)

/-- Completion events of the (possibly concurrent) tool invocations of one
turn: pairs of emission index and result, listed in the completion order
given by `order`. -/
def completionEvents (reg : RegistryFn) (calls : List ToolCall)
    (order : List Nat) : List (Nat × ToolRes) :=
  order.filterMap fun i => (calls[i]?).map fun c => (i, invokeOne reg c)

/-- Buffer completion events and re-emit the results in emission order
(index 0, 1, ...), as the design requires before appending to context. -/
def bufferReorder (n : Nat) (events : List (Nat × ToolRes)) : List ToolRes :=
  (List.range n).filterMap fun i =>
    (events.find? fun e => e.1 == i).map Prod.snd

/-- First-some choice on optional strings. -/
def optOr (a b : Option String) : Option String :=
  match a with
  | some t => some t
  | none => b

/-- Text of a turn, when the turn is an assistant turn. -/
def turnText : Turn → Option String
  | Turn.assistant t _ => t
  | _ => none

/-- Most recent assistant text present in a context, if any. -/
def lastAssistantText : List Turn → Option String
  | [] => none
  | t :: rest => optOr (lastAssistantText rest) (turnText t)

/-- Predicate singling out system turns. -/
def isSystemTurn : Turn → Bool
  | Turn.system _ => true
  | _ => false

/-- Number of system turns in a context. -/
def countSystemTurns (ctx : List Turn) : Nat := ctx.countP isSystemTurn

/-- State returned by the loop: the outcome, the final context, and the
number of generation requests issued. -/
structure LoopState where
  outcome : Outcome
  ctx : List Turn
  genCalls : Nat
  deriving DecidableEq

/-- Modelled from the spec: the orchestration loop of section 4.1 of the
design document.  The loop body is executed by the external generation
SDK (`generateText` with a step-count stop condition) and is not part of
the repository sources; only its configuration is.  Each iteration issues
one generation request, appends the assistant turn, returns `completed`
when the turn has no tool calls, otherwise dispatches every call through
the registry snapshot (emission order), appends the result turns and
recurses on the remaining budget.  A generation error is fatal and ends
the run at once. -/
def runLoop (gen : GenFn) (reg : RegistryFn) :
    List Turn → Option String → Nat → LoopState
  | ctx, lastSomeText, 0 => ⟨Outcome.budgetExhausted lastSomeText, ctx, 0⟩
  | ctx, lastSomeText, fuel + 1 =>
    match gen ctx with
    | Except.error e => ⟨Outcome.failed e.1 e.2, ctx, 1⟩
    | Except.ok (t, calls) =>
      match calls with
      | [] => ⟨Outcome.completed (t.getD ""), ctx ++ [Turn.assistant t []], 1⟩
      | c :: cs =>
        let results := dispatchCalls reg (c :: cs)
        let ctx2 := (ctx ++ [Turn.assistant t (c :: cs)])
          ++ results.map Turn.toolResult
        let s := runLoop gen reg ctx2 (optOr t lastSomeText) fuel
        ⟨s.outcome, s.ctx, s.genCalls + 1⟩

/-- Fixed system prompt, translated from `src/common/prompt.ts`. -/
def SYSTEM_PROMPT : String :=
  "You are a System Health Assistant that monitors federated learning nodes.\n\nYou have access to the following tools to check node health:\n\n- **check_node_health**: Check if a specific node is healthy or anomalous. Use this when asked about a node\x27s status. Requires a client_id.\n\n- **list_nodes**: List all registered nodes. Use this to see what nodes are available and their IDs.\n\n- **get_cluster_status**: Get overall fleet health. Use this for a quick overview.\n\n- **get_outliers**: Find nodes behaving abnormally. Use this to detect problems.\n\n- **compare_nodes**: Compare two nodes\x27 behavior. Requires two client_ids.\n\n- **get_node_history**: Get a node\x27s behavioral trend over time.\n\nGUIDELINES:\n\n1. When asked \"how is my node?\" or \"is my server ok?\", first call list_nodes to get the client_id, then call check_node_health.\n\n2. Interpret drift_score: \n   - < 1.0: Normal\n   - 1.0-2.0: Worth monitoring\n   - > 2.0: Anomalous, investigate!\n\n3. Be concise. Report status clearly:\n   - \"Node is healthy, drift score 0.3\"\n   - \"WARNING: Node is anomalous! Drift score 3.8 - behavior differs significantly from baseline\"\n\n4. If a node is warming up (< 5 samples), explain that more data is needed.\n\n5. Always provide actionable insights, not just raw numbers."

/-- Configured maximum step count, from `stopWhen: stepCountIs(10)` in the
chat router. -/
def maxSteps : Nat := 10

/-- Initial context seeded by the chat router: the fixed system prompt at
index 0, then the user turn. -/
def initCtx (userText : String) : List Turn :=
  [Turn.system SYSTEM_PROMPT, Turn.user userText]

/-- One full orchestration run as configured by the chat router. -/
def chatRun (gen : GenFn) (reg : RegistryFn) (userText : String) : LoopState :=
  runLoop gen reg (initCtx userText) none maxSteps

/-- Success payload of the sendMessage procedure: a single string field. -/
structure ChatResponse where
  output : String
  deriving DecidableEq

/-- Structured error thrown by the procedure on failure. -/
structure TRPCError where
  code : String
  message : String
  deriving DecidableEq

/-- Final text surfaced by the generation SDK for a run outcome: the
completed text, the last step text (empty when absent) on budget
exhaustion, and nothing on failure. -/
def finalText : Outcome → Option String
  | Outcome.completed t => some t
  | Outcome.budgetExhausted t => some (t.getD "")
  | Outcome.failed _ _ => none

/-- The `chat.sendMessage` procedure translated from the chat router
source: obtain the tool registry (a failure there is caught like any
other), run the loop with the seeded context and the configured step
budget, and return `\x7b output \x7d` on success; every caught error is
rethrown as a `TRPCError` with code INTERNAL_SERVER_ERROR and the
underlying message. -/
def chatSendMessage (gen : GenFn) (tools : Except String RegistryFn)
    (inputText : String) : Except TRPCError ChatResponse :=
  match tools with
  | Except.error m => Except.error ⟨"INTERNAL_SERVER_ERROR", m⟩
  | Except.ok reg =>
    match (chatRun gen reg inputText).outcome with
    | Outcome.completed t => Except.ok ⟨t⟩
    | Outcome.budgetExhausted t => Except.ok ⟨t.getD ""⟩
    | Outcome.failed _ m => Except.error ⟨"INTERNAL_SERVER_ERROR", m⟩

/-- Row of the reports table, restricted to the columns the reports
router reads (the full table schema lives outside the analyzed sources). -/
structure ReportRow where
  id : String
  userId : String
  title : String
  createdAt : Int
  deriving DecidableEq

/-- Descending order on creation time, as in
`orderBy(desc(reports.createdAt))`. -/
def createdDesc (a b : ReportRow) : Prop := b.createdAt ≤ a.createdAt

instance : DecidableRel createdDesc := fun a b => Int.decLe b.createdAt a.createdAt

instance : IsTotal ReportRow createdDesc := ⟨fun a b => le_total b.createdAt a.createdAt⟩

instance : IsTrans ReportRow createdDesc := ⟨fun _ _ _ h1 h2 => le_trans h2 h1⟩

/-- The `reports.getReports` query translated from the reports router:
select the rows of the calling user, most recent first. -/
def getReports (db : List ReportRow) (uid : String) : List ReportRow :=
  List.insertionSort createdDesc (db.filter fun r => r.userId == uid)

/-- Example tool call to a health-check tool. -/
def toolCallX : ToolCall := ⟨"call-1", "check_node_health", "n1"⟩

/-- Example tool call to a node-listing tool. -/
def toolCallY : ToolCall := ⟨"call-2", "list_nodes", ""⟩

/-- Two example calls of one assistant turn, in emission order. -/
def callsTwo : List ToolCall := [toolCallX, toolCallY]

/-- Registry snapshot with no tools registered. -/
def regEmpty : RegistryFn := fun _ => none

/-- Registry snapshot exposing only the health-check tool. -/
def regDemo : RegistryFn := fun n =>
  if n = "check_node_health" then
    some (fun args => Except.ok ("healthy:" ++ args))
  else none

/-- Generation client that always answers with one tool call. -/
def genBusy : GenFn := fun _ => Except.ok (some "x", [toolCallX])

/-- Generation client that answers immediately with no tool calls. -/
def genDone : GenFn := fun _ => Except.ok (some "x", [])

/-- Generation client that fails as unreachable backend. -/
def genFailU : GenFn := fun _ => Except.error (ErrKind.backendUnreachable, "boom")

/-- Generation client that fails as a cancelled run. -/
def genFailC : GenFn := fun _ => Except.error (ErrKind.cancelled, "boom")

/-- Example report rows. -/
def rowA : ReportRow := ⟨"r1", "u1", "oldest", 10⟩

/-- Example report row of another user. -/
def rowB : ReportRow := ⟨"r2", "u2", "foreign", 30⟩

/-- Example report row, most recent of user u1. -/
def rowC : ReportRow := ⟨"r3", "u1", "newest", 20⟩

/-- Example reports table. -/
def dbDemo : List ReportRow := [rowA, rowB, rowC]

/-- Unit table of `formatFileSize`. -/
def sizes : List String := ["B", "KB", "MB", "GB"]

/-- Decimal rendering of the ratio p / q to two decimal places (round
half up), modelling `(p / q).toFixed(2)` over exact arithmetic. -/
def toFixed2 (p q : Nat) : String :=
  let c := (200 * p + q) / (2 * q)
  toString (c / 100) ++ "." ++ (if c % 100 < 10 then "0" else "")
    ++ toString (c % 100)

/-- The `formatFileSize` helper translated from the reports page: zero
(falsy) byte counts short-circuit to "0 B"; otherwise the unit index is
the floor base-1024 logarithm and the scaled count is rendered with two
decimals.  An index beyond the unit table renders the JavaScript
`undefined` placeholder, exactly as `sizes[i]` does there. -/
def formatFileSize (bytes : Nat) : String :=
  if bytes = 0 then "0 B"
  else
    toFixed2 bytes (1024 ^ Nat.log 1024 bytes) ++ " "
      ++ sizes.getD (Nat.log 1024 bytes) "undefined"

theorem optOr_none_right (a : Option String) : optOr a none = a := by
  cases a <;> rfl

theorem optOr_assoc (a b c : Option String) :
    optOr (optOr a b) c = optOr a (optOr b c) := by
  cases a <;> rfl

theorem lastAssistantText_append (l1 l2 : List Turn) :
    lastAssistantText (l1 ++ l2) =
      optOr (lastAssistantText l2) (lastAssistantText l1) := by
  induction l1 with
  | nil => simp [lastAssistantText, optOr_none_right]
  | cons t rest ih =>
    rw [List.cons_append]
    simp only [lastAssistantText]
    rw [ih, optOr_assoc]

theorem lastAssistantText_toolResults (rs : List ToolRes) :
    lastAssistantText (rs.map Turn.toolResult) = none := by
  induction rs with
  | nil => rfl
  | cons r rs ih => simp [lastAssistantText, ih, turnText, optOr]

theorem runLoop_genCalls_le (gen : GenFn) (reg : RegistryFn) :
    ∀ (fuel : Nat) (ctx : List Turn) (lt : Option String),
      (runLoop gen reg ctx lt fuel).genCalls ≤ fuel := by
  intro fuel
  induction fuel with
  | zero => intro ctx lt; simp [runLoop]
  | succ n ih =>
    intro ctx lt
    cases hg : gen ctx with
    | error e => simp [runLoop, hg]
    | ok r =>
      obtain ⟨t, calls⟩ := r
      cases calls with
      | nil => simp [runLoop, hg]
      | cons c cs =>
        simp only [runLoop, hg]
        exact Nat.succ_le_succ (ih _ _)

theorem runLoop_gen_error (gen : GenFn) (reg : RegistryFn) (ctx : List Turn)
    (lt : Option String) (n : Nat) (k : ErrKind) (m : String)
    (h : gen ctx = Except.error (k, m)) :
    runLoop gen reg ctx lt (n + 1) = ⟨Outcome.failed k m, ctx, 1⟩ := by
  simp [runLoop, h]

/-- Claim C1: over one user message, the loop issues at most the configured
maximum number of generation requests, and that maximum is 10. -/
theorem claim_C1_step_budget (gen : GenFn) (reg : RegistryFn) (userText : String) :
    (chatRun gen reg userText).genCalls ≤ maxSteps ∧ maxSteps = 10 :=
  ⟨runLoop_genCalls_le gen reg maxSteps (initCtx userText) none, rfl⟩

/-- Claim C3: a generation step that returns an assistant turn with zero
tool calls ends the loop on that very iteration, whatever budget remains,
with a Completed outcome carrying that text verbatim. -/
theorem claim_C3_call_free_completes (gen : GenFn) (reg : RegistryFn)
    (ctx : List Turn) (lt : Option String) (fuel : Nat) (t : String)
    (h : gen ctx = Except.ok (some t, [])) :
    runLoop gen reg ctx lt (fuel + 1) =
      ⟨Outcome.completed t, ctx ++ [Turn.assistant (some t) []], 1⟩ := by
  simp [runLoop, h]

/-- Concrete run of the call-free termination theorem. -/
theorem claim_C3_witness :
    runLoop genDone regEmpty (initCtx "hello") none (4 + 1) =
      ⟨Outcome.completed "x", initCtx "hello" ++ [Turn.assistant (some "x") []], 1⟩ :=
  claim_C3_call_free_completes genDone regEmpty (initCtx "hello") none 4 "x" rfl

theorem runLoop_busy_exhausts (gen : GenFn) (reg : RegistryFn)
    (hbusy : ∀ ctx, ∃ t c cs, gen ctx = Except.ok (t, c :: cs)) :
    ∀ (fuel : Nat) (ctx : List Turn) (lt : Option String),
      lastAssistantText ctx = lt →
      (runLoop gen reg ctx lt fuel).outcome =
        Outcome.budgetExhausted
          (lastAssistantText (runLoop gen reg ctx lt fuel).ctx) := by
  intro fuel
  induction fuel with
  | zero => intro ctx lt hlt; simp [runLoop, hlt]
  | succ n ih =>
    intro ctx lt hlt
    obtain ⟨t, c, cs, hg⟩ := hbusy ctx
    simp only [runLoop, hg]
    apply ih
    rw [lastAssistantText_append, lastAssistantText_toolResults,
      lastAssistantText_append, hlt]
    simp [lastAssistantText, turnText, optOr_none_right]
    cases t <;> rfl

/-- Claim C2 (amended): exhausting the budget with no call-free turn yields
the loop outcome BudgetExhausted carrying the most recent assistant text
(or an absence marker if none was ever produced); the endpoint however
returns it to its caller as the same success payload as a Completed
answer. -/
theorem claim_C2_exhaustion_collapsed (gen : GenFn) (reg : RegistryFn)
    (userText : String)
    (hbusy : ∀ ctx, ∃ t c cs, gen ctx = Except.ok (t, c :: cs)) :
    (chatRun gen reg userText).outcome =
      Outcome.budgetExhausted
        (lastAssistantText (chatRun gen reg userText).ctx) ∧
    chatSendMessage gen (Except.ok reg) userText =
      Except.ok ⟨(lastAssistantText (chatRun gen reg userText).ctx).getD ""⟩ := by
  have h1 : (chatRun gen reg userText).outcome =
      Outcome.budgetExhausted (lastAssistantText (chatRun gen reg userText).ctx) :=
    runLoop_busy_exhausts gen reg hbusy maxSteps (initCtx userText) none rfl
  exact ⟨h1, by simp [chatSendMessage, h1]⟩

/-- Concrete run of the amended exhaustion theorem. -/
theorem claim_C2_witness :
    (chatRun genBusy regEmpty "q").outcome =
      Outcome.budgetExhausted
        (lastAssistantText (chatRun genBusy regEmpty "q").ctx) ∧
    chatSendMessage genBusy (Except.ok regEmpty) "q" =
      Except.ok ⟨(lastAssistantText (chatRun genBusy regEmpty "q").ctx).getD ""⟩ :=
  claim_C2_exhaustion_collapsed genBusy regEmpty "q"
    (fun _ => ⟨some "x", toolCallX, [], rfl⟩)

/-- A budget-exhausted run and a completed run reach the caller as the
identical success value: the claimed distinguishable BudgetExhausted
outcome does not survive the endpoint. -/
theorem claim_C2_counterexample :
    chatSendMessage genBusy (Except.ok regEmpty) "q" = Except.ok ⟨"x"⟩ ∧
    chatSendMessage genDone (Except.ok regEmpty) "q" = Except.ok ⟨"x"⟩ ∧
    (chatRun genBusy regEmpty "q").outcome = Outcome.budgetExhausted (some "x") ∧
    (chatRun genDone regEmpty "q").outcome = Outcome.completed "x" ∧
    Outcome.budgetExhausted (some "x") ≠ Outcome.completed "x" :=
  ⟨rfl, rfl, by decide, rfl, by decide⟩

/-- Claim C5 (amended): every fatal failure is surfaced as a structured
TRPCError with the fixed code INTERNAL_SERVER_ERROR and the underlying
human-readable message, with no retry.  A generation failure of any
fault kind (backend unreachable, loop-level timeout, cancellation) ends
the run after that single generation request; a registry unavailable at
loop start is surfaced the same way. -/
theorem claim_C5_fatal_single_code (gen : GenFn) (reg : RegistryFn)
    (userText : String) (k : ErrKind) (m regMsg : String) :
    (gen (initCtx userText) = Except.error (k, m) →
      chatSendMessage gen (Except.ok reg) userText =
        Except.error ⟨"INTERNAL_SERVER_ERROR", m⟩ ∧
      (chatRun gen reg userText).genCalls = 1) ∧
    chatSendMessage gen (Except.error regMsg) userText =
      Except.error ⟨"INTERNAL_SERVER_ERROR", regMsg⟩ := by
  constructor
  · intro h
    have hrun : chatRun gen reg userText = ⟨Outcome.failed k m, initCtx userText, 1⟩ :=
      runLoop_gen_error gen reg (initCtx userText) none 9 k m h
    exact ⟨by simp [chatSendMessage, hrun], by simp [hrun]⟩
  · rfl

/-- Concrete run of the amended fatal-failure theorem, on a generation
failure and on an unavailable registry. -/
theorem claim_C5_witness :
    (chatSendMessage genFailU (Except.ok regEmpty) "q" =
        Except.error ⟨"INTERNAL_SERVER_ERROR", "boom"⟩ ∧
      (chatRun genFailU regEmpty "q").genCalls = 1) ∧
    chatSendMessage genFailU (Except.error "registry down") "q" =
      Except.error ⟨"INTERNAL_SERVER_ERROR", "registry down"⟩ :=
  ⟨(claim_C5_fatal_single_code genFailU regEmpty "q"
      ErrKind.backendUnreachable "boom" "registry down").1 rfl,
   (claim_C5_fatal_single_code genFailU regEmpty "q"
      ErrKind.backendUnreachable "boom" "registry down").2⟩

/-- Two distinct fatal fault classes surface to the caller as the exact
same structured error: the error kind does not distinguish them. -/
theorem claim_C5_counterexample :
    chatSendMessage genFailU (Except.ok regEmpty) "q" =
      chatSendMessage genFailC (Except.ok regEmpty) "q" ∧
    chatSendMessage genFailU (Except.ok regEmpty) "q" =
      Except.error ⟨"INTERNAL_SERVER_ERROR", "boom"⟩ ∧
    ErrKind.backendUnreachable ≠ ErrKind.cancelled :=
  ⟨rfl, rfl, by decide⟩

/-- Claim C4: a call whose name is absent from the registry snapshot never
invokes a tool: it is normalized to an UnknownTool error result, that
result is fed back among the result turns, and the loop proceeds to the
next iteration instead of aborting the run. -/
theorem claim_C4_unknown_tool (gen : GenFn) (reg : RegistryFn)
    (ctx : List Turn) (lt : Option String) (fuel : Nat)
    (t : Option String) (c0 : ToolCall) (cs : List ToolCall) (c : ToolCall)
    (hg : gen ctx = Except.ok (t, c0 :: cs))
    (hc : c ∈ c0 :: cs) (hr : reg c.name = none) :
    invokeOne reg c =
      ToolRes.err c.id ErrKind.unknownTool ("Unknown tool: " ++ c.name) ∧
    ToolRes.err c.id ErrKind.unknownTool ("Unknown tool: " ++ c.name) ∈
      dispatchCalls reg (c0 :: cs) ∧
    runLoop gen reg ctx lt (fuel + 1) =
      ⟨(runLoop gen reg ((ctx ++ [Turn.assistant t (c0 :: cs)])
          ++ (dispatchCalls reg (c0 :: cs)).map Turn.toolResult)
          (optOr t lt) fuel).outcome,
       (runLoop gen reg ((ctx ++ [Turn.assistant t (c0 :: cs)])
          ++ (dispatchCalls reg (c0 :: cs)).map Turn.toolResult)
          (optOr t lt) fuel).ctx,
       (runLoop gen reg ((ctx ++ [Turn.assistant t (c0 :: cs)])
          ++ (dispatchCalls reg (c0 :: cs)).map Turn.toolResult)
          (optOr t lt) fuel).genCalls + 1⟩ := by
  have h1 : invokeOne reg c =
      ToolRes.err c.id ErrKind.unknownTool ("Unknown tool: " ++ c.name) := by
    simp [invokeOne, hr]
  refine ⟨h1, ?_, ?_⟩
  · rw [← h1]
    exact List.mem_map_of_mem (invokeOne reg) hc
  · simp only [runLoop, hg]

/-- Concrete run of the unknown-tool theorem. -/
theorem claim_C4_witness :
    invokeOne regEmpty toolCallX =
      ToolRes.err toolCallX.id ErrKind.unknownTool
        ("Unknown tool: " ++ toolCallX.name) ∧
    ToolRes.err toolCallX.id ErrKind.unknownTool
        ("Unknown tool: " ++ toolCallX.name) ∈
      dispatchCalls regEmpty (toolCallX :: []) ∧
    runLoop genBusy regEmpty (initCtx "q") none (2 + 1) =
      ⟨(runLoop genBusy regEmpty ((initCtx "q" ++ [Turn.assistant (some "x") (toolCallX :: [])])
          ++ (dispatchCalls regEmpty (toolCallX :: [])).map Turn.toolResult)
          (optOr (some "x") none) 2).outcome,
       (runLoop genBusy regEmpty ((initCtx "q" ++ [Turn.assistant (some "x") (toolCallX :: [])])
          ++ (dispatchCalls regEmpty (toolCallX :: [])).map Turn.toolResult)
          (optOr (some "x") none) 2).ctx,
       (runLoop genBusy regEmpty ((initCtx "q" ++ [Turn.assistant (some "x") (toolCallX :: [])])
          ++ (dispatchCalls regEmpty (toolCallX :: [])).map Turn.toolResult)
          (optOr (some "x") none) 2).genCalls + 1⟩ :=
  claim_C4_unknown_tool genBusy regEmpty (initCtx "q") none 2
    (some "x") toolCallX [] toolCallX rfl (List.mem_cons_self toolCallX []) rfl

theorem find?_completionEvents (reg : RegistryFn) (calls : List ToolCall)
    (i : Nat) (c : ToolCall) (hc : calls[i]? = some c) :
    ∀ order : List Nat, i ∈ order →
      (completionEvents reg calls order).find? (fun e => e.1 == i) =
        some (i, invokeOne reg c) := by
  intro order
  induction order with
  | nil => intro h; exact absurd h (List.not_mem_nil i)
  | cons j rest ih =>
    intro hmem
    by_cases hji : j = i
    · subst hji
      simp [completionEvents, List.filterMap_cons, hc, List.find?_cons]
    · have hrest : i ∈ rest := by
        rcases List.mem_cons.mp hmem with h | h
        · exact absurd h.symm hji
        · exact h
      cases hj : calls[j]? with
      | none =>
        simp only [completionEvents, List.filterMap_cons, hj, Option.map_none']
        exact ih hrest
      | some cj =>
        simp only [completionEvents, List.filterMap_cons, hj, Option.map_some',
          List.find?_cons]
        have : ((j, invokeOne reg cj).1 == i) = false := by
          simp [hji]
        rw [this]
        exact ih hrest

theorem filterMap_range_eq_map (reg : RegistryFn) :
    ∀ (l : List ToolCall) (f : Nat → Option ToolRes),
      (∀ i c, l[i]? = some c → f i = some (invokeOne reg c)) →
      (List.range l.length).filterMap f = l.map (invokeOne reg) := by
  intro l
  induction l with
  | nil => intro f _; rfl
  | cons c cs ih =>
    intro f h
    have h0 : f 0 = some (invokeOne reg c) := h 0 c (by simp)
    simp only [List.length_cons, List.range_succ_eq_map, List.filterMap_cons, h0,
      List.filterMap_map, List.map_cons]
    congr 1
    apply ih
    intro i ci hci
    exact h (i + 1) ci (by simpa using hci)

/-- Claim C6: whatever the completion order of the (possibly concurrent)
tool invocations of one assistant turn, buffering the completion events
and re-emitting them by emission index yields exactly the result
sequence in tool-call emission order. -/
theorem claim_C6_order_independent (reg : RegistryFn) (calls : List ToolCall)
    (order : List Nat) (hcover : ∀ i, i < calls.length → i ∈ order) :
    bufferReorder calls.length (completionEvents reg calls order) =
      dispatchCalls reg calls := by
  unfold bufferReorder dispatchCalls
  apply filterMap_range_eq_map
  intro i c hc
  have hi : i < calls.length := (List.getElem?_eq_some.mp hc).1
  rw [find?_completionEvents reg calls i c hc order (hcover i hi)]
  rfl

/-- Concrete run of the order-independence theorem with reversed
completion order. -/
theorem claim_C6_witness :
    bufferReorder callsTwo.length (completionEvents regDemo callsTwo [1, 0]) =
      dispatchCalls regDemo callsTwo :=
  claim_C6_order_independent regDemo callsTwo [1, 0] (by decide)

theorem countSystemTurns_toolResults (rs : List ToolRes) :
    countSystemTurns (rs.map Turn.toolResult) = 0 := by
  refine List.countP_eq_zero.mpr ?_
  intro a ha
  obtain ⟨r, _, rfl⟩ := List.mem_map.mp ha
  simp [isSystemTurn]

theorem runLoop_ctx_extends (gen : GenFn) (reg : RegistryFn) :
    ∀ (fuel : Nat) (ctx : List Turn) (lt : Option String),
      ∃ ext, (runLoop gen reg ctx lt fuel).ctx = ctx ++ ext ∧
        countSystemTurns ext = 0 := by
  intro fuel
  induction fuel with
  | zero => intro ctx lt; exact ⟨[], by simp [runLoop], rfl⟩
  | succ n ih =>
    intro ctx lt
    cases hg : gen ctx with
    | error e => exact ⟨[], by simp [runLoop, hg], rfl⟩
    | ok r =>
      obtain ⟨t, calls⟩ := r
      cases calls with
      | nil =>
        refine ⟨[Turn.assistant t []], by simp [runLoop, hg], rfl⟩
      | cons c cs =>
        obtain ⟨ext, hext, hcount⟩ :=
          ih ((ctx ++ [Turn.assistant t (c :: cs)])
            ++ (dispatchCalls reg (c :: cs)).map Turn.toolResult) (optOr t lt)
        refine ⟨[Turn.assistant t (c :: cs)]
          ++ (dispatchCalls reg (c :: cs)).map Turn.toolResult ++ ext, ?_, ?_⟩
        · simp only [runLoop, hg]
          rw [hext]
          simp [List.append_assoc]
        · simp only [countSystemTurns, List.countP_append] at hcount ⊢
          simp [hcount, countSystemTurns_toolResults, isSystemTurn,
            List.countP_cons]

/-- Claim C7: in every run the context holds the fixed system prompt as
its only system turn, at index 0, immediately followed by the user turn,
and this stays true of the whole final context (the loop only appends
assistant and tool-result turns). -/
theorem claim_C7_system_turn_invariant (gen : GenFn) (reg : RegistryFn)
    (userText : String) :
    ((chatRun gen reg userText).ctx)[0]? = some (Turn.system SYSTEM_PROMPT) ∧
    ((chatRun gen reg userText).ctx)[1]? = some (Turn.user userText) ∧
    countSystemTurns (chatRun gen reg userText).ctx = 1 := by
  obtain ⟨ext, hext, hcount⟩ :=
    runLoop_ctx_extends gen reg maxSteps (initCtx userText) none
  have hctx : (chatRun gen reg userText).ctx = initCtx userText ++ ext := hext
  rw [hctx]
  refine ⟨?_, ?_, ?_⟩
  · simp [initCtx, List.getElem?_append]
  · simp [initCtx, List.getElem?_append]
  · simp [countSystemTurns, List.countP_append, initCtx, isSystemTurn,
      List.countP_cons]
    simpa [countSystemTurns] using hcount

/-- Claim C8: the inbound surface is the single request/response procedure
taking a record with string field text; its success payload is exactly one
string holding the final generated text (the run outcome determines the
whole response, so no tool-call payload and no stream is exposed), and a
response carries nothing besides that string. -/
theorem claim_C8_single_operation (gen : GenFn) (reg : RegistryFn)
    (inputText : String) :
    (chatSendMessage gen (Except.ok reg) inputText).toOption =
      (finalText (chatRun gen reg inputText).outcome).map ChatResponse.mk ∧
    Function.Injective ChatResponse.output := by
  constructor
  · cases ho : (chatRun gen reg inputText).outcome <;>
      simp [chatSendMessage, finalText, ho, Except.toOption]
  · intro r1 r2 h
    cases r1
    cases r2
    cases h
    rfl

/-- Claim C9: getReports returns only rows of the calling user, ordered by
creation time descending (most recent first). -/
theorem claim_C9_reports_scoped_sorted (db : List ReportRow) (uid : String) :
    (∀ r ∈ getReports db uid, r.userId = uid) ∧
    List.Pairwise createdDesc (getReports db uid) := by
  constructor
  · intro r hr
    have hmem : r ∈ db.filter fun r => r.userId == uid :=
      (List.perm_insertionSort createdDesc _).mem_iff.mp hr
    simpa using (List.mem_filter.mp hmem).2
  · exact List.sorted_insertionSort createdDesc _

/-- Concrete run of the reports theorem on an example table. -/
theorem claim_C9_witness :
    rowC.userId = "u1" ∧ rowA.userId = "u1" ∧
    List.Pairwise createdDesc (getReports dbDemo "u1") :=
  ⟨(claim_C9_reports_scoped_sorted dbDemo "u1").1 rowC (by decide),
   (claim_C9_reports_scoped_sorted dbDemo "u1").1 rowA (by decide),
   (claim_C9_reports_scoped_sorted dbDemo "u1").2⟩

/-- Claim C10 (amended): formatFileSize is total; a zero byte count
short-circuits to "0 B" before any logarithm is taken; a positive count
below 1024 to the 4th power is rendered to two decimals with the B, KB,
MB or GB unit selected by the floor base-1024 logarithm; at or above
1024 to the 4th power the selected index leaves the unit table and the
rendered unit is the JavaScript placeholder string undefined. -/
theorem claim_C10_format_file_size (bytes : Nat) :
    (bytes = 0 → formatFileSize bytes = "0 B") ∧
    (0 < bytes → bytes < 1024 ^ 4 →
      sizes.get? (Nat.log 1024 bytes) =
        some (sizes.getD (Nat.log 1024 bytes) "undefined") ∧
      formatFileSize bytes =
        toFixed2 bytes (1024 ^ Nat.log 1024 bytes) ++ " "
          ++ sizes.getD (Nat.log 1024 bytes) "undefined") ∧
    (0 < bytes → 1024 ^ 4 ≤ bytes →
      formatFileSize bytes =
        toFixed2 bytes (1024 ^ Nat.log 1024 bytes) ++ " undefined") := by
  refine ⟨fun h => by simp [formatFileSize, h], ?_, ?_⟩
  · intro hpos hlt
    have hne : bytes ≠ 0 := Nat.pos_iff_ne_zero.mp hpos
    have hlog : Nat.log 1024 bytes < 4 :=
      (Nat.lt_pow_iff_log_lt (by norm_num) hne).mp hlt
    constructor
    · set i := Nat.log 1024 bytes with hi
      interval_cases i <;> simp [sizes]
    · simp [formatFileSize, hne]
  · intro hpos hge
    have hne : bytes ≠ 0 := Nat.pos_iff_ne_zero.mp hpos
    have hlog : 4 ≤ Nat.log 1024 bytes :=
      (Nat.pow_le_iff_le_log (by norm_num) hne).mp hge
    have hdef : sizes.getD (Nat.log 1024 bytes) "undefined" = "undefined" :=
      List.getD_eq_default sizes "undefined" (by simpa [sizes] using hlog)
    unfold formatFileSize
    rw [if_neg hne, hdef, String.append_assoc]
    rfl

/-- Concrete runs of the amended formatFileSize theorem. -/
theorem claim_C10_witness :
    formatFileSize 0 = "0 B" ∧
    (sizes.get? (Nat.log 1024 2048) =
        some (sizes.getD (Nat.log 1024 2048) "undefined") ∧
      formatFileSize 2048 =
        toFixed2 2048 (1024 ^ Nat.log 1024 2048) ++ " "
          ++ sizes.getD (Nat.log 1024 2048) "undefined") ∧
    formatFileSize (1024 ^ 5) =
      toFixed2 (1024 ^ 5) (1024 ^ Nat.log 1024 (1024 ^ 5)) ++ " undefined" :=
  ⟨(claim_C10_format_file_size 0).1 rfl,
   (claim_C10_format_file_size 2048).2.1 (by norm_num) (by norm_num),
   (claim_C10_format_file_size (1024 ^ 5)).2.2 (by positivity) (by norm_num)⟩

/-- At one tebibyte the unit index is 4, beyond the unit table: the
rendered unit is undefined rather than any of B, KB, MB, GB. -/
theorem claim_C10_counterexample :
    formatFileSize (1024 ^ 4) = "1.00 undefined" ∧
    sizes.get? (Nat.log 1024 (1024 ^ 4)) = none ∧
    "undefined" ∉ sizes := by
  have hlog : Nat.log 1024 (1024 ^ 4) = 4 := Nat.log_pow (by norm_num) 4
  refine ⟨?_, by rw [hlog]; decide, by decide⟩
  unfold formatFileSize
  rw [if_neg (by norm_num : ¬(1024 ^ 4 = 0)), hlog]
  decide
